import Mathlib

/-!
Verification model of `server.js`, the Express backend of the
primefounders marketing site.  The server exposes a contact-form
endpoint, portfolio ("client") endpoints, and a single-admin
authentication flow (register / login / bearer-token guard).

The external collaborators are modelled by their observable behaviour:

* the MongoDB document store (via mongoose) becomes an explicit `Store`
  value threaded through the handlers; `find` / `findOne` / `findById` /
  `findByIdAndUpdate` / `findByIdAndDelete` become list operations on the
  stored records, and Mongo's generated object ids become a `nextId`
  counter;
* `bcryptjs` becomes a deterministic salted-tag hash `bcryptHash`
  (`bcrypt.hash(p, 10)` tags the plaintext; `bcrypt.compare` re-hashes
  and compares).  Calling `bcrypt.hash` on a missing (non-string) value
  rejects, which `bcryptHashOpt` models with `Except`;
* `jsonwebtoken` tokens become the `RawTok` type: a token is either
  malformed or a payload signed with a numeric key; `jwt.verify`
  succeeds exactly when the key matches the server secret and the
  expiry lies in the future, and `jwt.sign(..., expiresIn: 7d)` stamps
  `now + sevenDays`;
* `nodemailer` becomes a list of `EmailMsg` side effects returned by the
  contact handler, with a `sinkOk` flag injecting sink failure (the
  `try/catch` around `sendMail` swallows the failure);
* express `req.body` string fields become `Option String` (`none` for an
  absent field), and the JavaScript falsiness test `!x` used by the
  validation code becomes `falsy` (absent or empty string).

Mongoose schemas are strict by default: constructing a document from a
request body keeps only the schema-declared paths, so `ClientBody`
carries the schema fields plus an `extra` association list of
non-schema keys, which document construction discards.
-/

/-- HTTP response consisting of a status code and the JSON body
`\x7b success, message \x7d` used by most handlers of `server.js`. -/
structure ApiMsg where
  status : Nat
  success : Bool
  message : String
deriving DecidableEq, Repr

/-- HTTP response with JSON body `\x7b success, message?, data? \x7d`,
used by the handlers that return stored records. -/
structure DataResp (α : Type) where
  status : Nat
  success : Bool
  message : Option String
  data : Option α
deriving DecidableEq

/-- A stored contact-form submission (mongoose `contactSchema`):
`name` and `email` are required strings, `phone` and `service` optional,
`message` a string, `date` defaults to the creation time and `status`
defaults to `"new"`. -/
structure Contact where
  id : Nat
  name : String
  email : String
  phone : Option String
  service : Option String
  message : String
  date : Nat
  status : String
deriving DecidableEq, Repr

/-- A stored portfolio entry (mongoose `clientSchema`): all content
fields optional, `date` defaults to the creation time. -/
structure Client where
  id : Nat
  name : Option String
  logo : Option String
  projectName : Option String
  category : Option String
  results : Option String
  testimonial : Option String
  clientRating : Option Int
  date : Nat
deriving DecidableEq, Repr

/-- A stored admin account (mongoose `adminSchema`): unique required
`username` and required `password`, which the register handler fills
with the bcrypt hash. -/
structure Admin where
  id : Nat
  username : String
  password : String
deriving DecidableEq, Repr

/-- The document store: the three mongoose collections plus the id
counter standing in for Mongo object-id generation. -/
structure Store where
  contacts : List Contact
  clients : List Client
  admins : List Admin
  nextId : Nat
deriving DecidableEq, Repr

/-- The empty store (fresh database). -/
def st0 : Store := ⟨[], [], [], 0⟩

/-- JavaScript falsiness of an optional request-body string: `!x` is
true exactly when the field is absent or the empty string. -/
def falsy : Option String → Bool
  | none => true
  | some s => s == ""

/-- Model of `bcrypt.hash(p, 10)`: a salted one-way hash, modelled as
tagging the plaintext with the bcrypt version/cost prefix.  The model
keeps the two properties the code relies on: verification by re-hashing
is deterministic, and the output is never the plaintext itself. -/
def bcryptHash (p : String) : String := "$2a$10$" ++ p

/-- Model of `bcrypt.compare(p, h)`: re-hash and compare. -/
def bcryptCompare (p h : String) : Bool := bcryptHash p == h

/-- Model of `bcrypt.hash` applied to a possibly-absent body field:
bcryptjs rejects (throws "Illegal arguments") when the value is not a
string, and the register handler has no presence validation of its
own. -/
def bcryptHashOpt : Option String → Except String String
  | none => .error "Illegal arguments"
  | some p => .ok (bcryptHash p)

/-- Model of a bearer token as seen by `jwt.verify`: either malformed
bytes or a payload `\x7b id \x7d` with an expiry, signed with a numeric
key. -/
inductive RawTok where
  | malformed
  | signed (id : Nat) (exp : Nat) (key : Nat)
deriving DecidableEq, Repr

/-- Seconds in the `expiresIn: '7d'` lifetime used by `jwt.sign`. -/
def sevenDays : Nat := 7 * 24 * 60 * 60

/-- Model of `jwt.verify(token, secret)` at time `now`: fails on
malformed bytes, a wrong signing key, or an expiry not in the future;
otherwise returns the embedded admin id. -/
def jwtVerify (secret now : Nat) : RawTok → Option Nat
  | .malformed => none
  | .signed id exp key => if key == secret && decide (now < exp) then some id else none

/-- Model of `jwt.sign(\x7b id \x7d, secret, \x7b expiresIn: '7d' \x7d)`. -/
def jwtSign (secret now id : Nat) : RawTok := .signed id (now + sevenDays) secret

/-- Mongoose `Admin.findOne(\x7b username \x7d)`: first stored admin with
that username. -/
def findAdminByUsername (l : List Admin) (u : String) : Option Admin :=
  l.find? (fun a => a.username == u)

/-- Mongoose `Admin.findById(id)`. -/
def findAdminById (l : List Admin) (id : Nat) : Option Admin :=
  l.find? (fun a => a.id == id)

/-- Mongoose `Contact.findById`-style lookup used to model
`findByIdAndUpdate` / `findByIdAndDelete` results. -/
def findContactById (l : List Contact) (cid : Nat) : Option Contact :=
  l.find? (fun c => c.id == cid)

/-- Store side of `Contact.findByIdAndUpdate(id, \x7b status \x7d)`:
update the status of the (unique) document with the given id, if any. -/
def updateContactStatus (l : List Contact) (cid : Nat) (ns : String) : List Contact :=
  match l with
  | [] => []
  | c :: cs =>
    if c.id == cid then { c with status := ns } :: cs
    else c :: updateContactStatus cs cid ns

/-- Store side of `Contact.findByIdAndDelete(id)`: remove the (unique)
document with the given id, if any. -/
def removeContactById (l : List Contact) (cid : Nat) : List Contact :=
  match l with
  | [] => []
  | c :: cs => if c.id == cid then cs else c :: removeContactById cs cid

/-- The uniform failure response of the auth middleware:
`401 \x7b success: false, message: 'Please authenticate' \x7d`. -/
def authFailResp : ApiMsg := ⟨401, false, "Please authenticate"⟩

/-- The `auth` middleware of `server.js` (lines 65-79): extract the
bearer token from the `Authorization` header (`none` models both a
missing header and an empty token, which are equally falsy), verify it
with the server secret, resolve the embedded id against the admin
collection, and fail with the single catch-all 401 response on any of
the three failure paths. -/
def authGuard (st : Store) (secret now : Nat) (header : Option RawTok) :
    Except ApiMsg Admin :=
  match header with
  | none => .error authFailResp
  | some tok =>
    match jwtVerify secret now tok with
    | none => .error authFailResp
    | some id =>
      match findAdminById st.admins id with
      | none => .error authFailResp
      | some a => .ok a

/-- The notification email assembled by the contact handler (subject and
the interpolated fields; `phone || 'Not provided'` and
`service || 'Not specified'` are the JavaScript fallbacks). -/
structure EmailMsg where
  subject : String
  name : String
  email : String
  phone : String
  service : String
  message : String
deriving DecidableEq, Repr

/-- Handler `POST /api/contact` (lines 84-139).  Validates that `name`,
`email`, `message` are present and non-empty (JS falsiness), persists a
new contact with default status `"new"` and the current date, then
attempts the best-effort notification: `sinkOk` injects the outcome of
`transporter.sendMail`, whose failure is caught and logged without
touching the response.  Returns the response, the new store, and the
list of emails actually dispatched. -/
def contactSubmit (st : Store) (now : Nat) (sinkOk : Bool)
    (name email phone service message : Option String) :
    ApiMsg × Store × List EmailMsg :=
  if falsy name || falsy email || falsy message then
    (⟨400, false, "Name, email and message are required"⟩, st, [])
  else
    let c : Contact :=
      ⟨st.nextId, name.getD "", email.getD "", phone, service, message.getD "", now, "new"⟩
    let sent :=
      if sinkOk then
        [⟨"New Contact Form Submission", name.getD "", email.getD "",
          if falsy phone then "Not provided" else phone.getD "",
          if falsy service then "Not specified" else service.getD "",
          message.getD ""⟩]
      else ([] : List EmailMsg)
    (⟨201, true, "Thank you! We will contact you soon."⟩,
     { st with contacts := st.contacts ++ [c], nextId := st.nextId + 1 },
     sent)

/-- Descending-date order used by `.sort(\x7b date: -1 \x7d)`. -/
def dateGe (x y : Contact) : Prop := y.date ≤ x.date

instance : DecidableRel dateGe := fun _ y => Nat.decLe y.date _

instance : IsTotal Contact dateGe := ⟨fun a b => Nat.le_total b.date a.date⟩

instance : IsTrans Contact dateGe := ⟨fun _ _ _ hab hbc => Nat.le_trans hbc hab⟩

/-- Model of `Contact.find().sort(\x7b date: -1 \x7d)`: the stored
contacts sorted by date, most recent first. -/
def sortContactsByDateDesc (l : List Contact) : List Contact :=
  List.insertionSort dateGe l

/-- Handler `GET /api/contacts` (lines 142-149, behind `auth`): return
all contacts sorted newest-first. -/
def getContacts (st : Store) (secret now : Nat) (header : Option RawTok) :
    DataResp (List Contact) :=
  match authGuard st secret now header with
  | .error r => ⟨r.status, r.success, some r.message, none⟩
  | .ok _ => ⟨200, true, none, some (sortContactsByDateDesc st.contacts)⟩

/-- Handler `PUT /api/contact/:id` (lines 152-164, behind `auth`):
`findByIdAndUpdate` with `\x7b new: true \x7d` returns the updated
document, or `null` when no document has the id; the response reports
success either way. -/
def updateStatus (st : Store) (secret now : Nat) (header : Option RawTok)
    (cid : Nat) (ns : String) : DataResp Contact × Store :=
  match authGuard st secret now header with
  | .error r => (⟨r.status, r.success, some r.message, none⟩, st)
  | .ok _ =>
    match findContactById st.contacts cid with
    | none => (⟨200, true, none, none⟩, st)
    | some c =>
      (⟨200, true, none, some { c with status := ns }⟩,
       { st with contacts := updateContactStatus st.contacts cid ns })

/-- Handler `DELETE /api/contact/:id` (lines 167-174, behind `auth`):
`findByIdAndDelete` then an unconditional success message. -/
def deleteContact (st : Store) (secret now : Nat) (header : Option RawTok)
    (cid : Nat) : ApiMsg × Store :=
  match authGuard st secret now header with
  | .error r => (r, st)
  | .ok _ =>
    (⟨200, true, "Contact deleted"⟩,
     { st with contacts := removeContactById st.contacts cid })

/-- A `POST /api/clients` request body: the `clientSchema` paths the
caller may set, plus `extra`, the association list of body keys that are
not schema paths (mongoose strict mode ignores them when the document is
constructed). -/
structure ClientBody where
  name : Option String
  logo : Option String
  projectName : Option String
  category : Option String
  results : Option String
  testimonial : Option String
  clientRating : Option Int
  extra : List (String × String)
deriving DecidableEq, Repr

/-- `new Client(req.body)` under mongoose strict mode: keep the schema
paths, discard `extra`, stamp the default `date`. -/
def clientOfBody (id now : Nat) (b : ClientBody) : Client :=
  ⟨id, b.name, b.logo, b.projectName, b.category, b.results, b.testimonial,
   b.clientRating, now⟩

/-- Handler `POST /api/clients` (lines 186-194, behind `auth`): persist
the document built from the body and return it with 201. -/
def createClient (st : Store) (secret now : Nat) (header : Option RawTok)
    (b : ClientBody) : DataResp Client × Store :=
  match authGuard st secret now header with
  | .error r => (⟨r.status, r.success, some r.message, none⟩, st)
  | .ok _ =>
    let c := clientOfBody st.nextId now b
    (⟨201, true, none, some c⟩,
     { st with clients := st.clients ++ [c], nextId := st.nextId + 1 })

/-- Handler `GET /api/clients` (lines 177-184, public): all portfolio
entries (sorted by date descending; the sort is irrelevant to the claims
and kept as the identity-permutation model used for contacts). -/
def getClients (st : Store) : DataResp (List Client) :=
  ⟨200, true, none, some st.clients⟩

/-- Handler `POST /api/admin/register` (lines 197-218, public): reject a
duplicate username with 400, otherwise hash the password and persist the
account; a rejection thrown by `bcrypt.hash` (absent/non-string
password) falls into the catch-all 500. -/
def register (st : Store) (now : Nat) (username : String)
    (password : Option String) : ApiMsg × Store :=
  match findAdminByUsername st.admins username with
  | some _ => (⟨400, false, "Admin already exists"⟩, st)
  | none =>
    match bcryptHashOpt password with
    | .error _ => (⟨500, false, "Server error"⟩, st)
    | .ok h =>
      (⟨201, true, "Admin created successfully"⟩,
       { st with admins := st.admins ++ [⟨st.nextId, username, h⟩],
                 nextId := st.nextId + 1 })

/-- Response of the login handler: status, `success`, `message`, and the
optional signed token. -/
structure LoginResp where
  status : Nat
  success : Bool
  message : String
  token : Option RawTok
deriving DecidableEq, Repr

/-- The shared `401 \x7b success: false, message: 'Invalid credentials' \x7d`
login failure response. -/
def invalidCredsResp : LoginResp := ⟨401, false, "Invalid credentials", none⟩

/-- Handler `POST /api/admin/login` (lines 220-243, public): look up the
account, compare the password against the stored hash, and on success
sign a 7-day token carrying the admin id. -/
def login (st : Store) (secret now : Nat) (username password : String) :
    LoginResp :=
  match findAdminByUsername st.admins username with
  | none => invalidCredsResp
  | some a =>
    if bcryptCompare password a.password then
      ⟨200, true, "Login successful", some (jwtSign secret now a.id)⟩
    else invalidCredsResp

/-- One inbound request, for the reachability relation: every handler
that can change the store, plus the read-only ones. -/
inductive Req where
  | contact (sinkOk : Bool) (name email phone service message : Option String)
  | listContacts (header : Option RawTok)
  | putStatus (header : Option RawTok) (cid : Nat) (ns : String)
  | delContact (header : Option RawTok) (cid : Nat)
  | listClients
  | addClient (header : Option RawTok) (b : ClientBody)
  | reg (username : String) (password : Option String)
  | logIn (username password : String)

/-- The store after serving one request. -/
def stepStore (secret now : Nat) (st : Store) : Req → Store
  | .contact ok n e p s m => (contactSubmit st now ok n e p s m).2.1
  | .listContacts _ => st
  | .putStatus h cid ns => (updateStatus st secret now h cid ns).2
  | .delContact h cid => (deleteContact st secret now h cid).2
  | .listClients => st
  | .addClient h b => (createClient st secret now h b).2
  | .reg u p => (register st now u p).2
  | .logIn _ _ => st

/-- Store states reachable from the fresh database by any sequence of
requests, at any times and with any server secret. -/
inductive Reachable : Store → Prop
  | init : Reachable st0
  | step {st : Store} (secret now : Nat) (r : Req) :
      Reachable st → Reachable (stepStore secret now st r)

/-- Concrete fixtures reused by the witness theorems below: one stored
contact, one registered admin (id 3) whose token `tokA` is signed with
secret 7 and expires at time 200. -/
def adminA : Admin := ⟨3, "a", bcryptHash "p1"⟩

def contactC : Contact := ⟨0, "X", "x@x.com", none, none, "hi", 9, "new"⟩

def stA : Store := ⟨[contactC], [], [adminA], 4⟩

def tokA : RawTok := .signed 3 200 7

def bodyEmpty : ClientBody := ⟨none, none, none, none, none, none, none, []⟩

def bodyFoo : ClientBody := ⟨none, none, none, none, none, none, none, [("foo", "bar")]⟩

/-- The contact handler never touches the admin collection. -/
theorem contactSubmit_admins (st : Store) (now : Nat) (ok : Bool)
    (n e p s m : Option String) :
    ((contactSubmit st now ok n e p s m).2.1).admins = st.admins := by
  unfold contactSubmit
  split <;> rfl

/-- The status-update handler never touches the admin collection. -/
theorem updateStatus_admins (st : Store) (secret now : Nat)
    (h : Option RawTok) (cid : Nat) (ns : String) :
    ((updateStatus st secret now h cid ns).2).admins = st.admins := by
  unfold updateStatus
  split
  · rfl
  · split <;> rfl

/-- The delete handler never touches the admin collection. -/
theorem deleteContact_admins (st : Store) (secret now : Nat)
    (h : Option RawTok) (cid : Nat) :
    ((deleteContact st secret now h cid).2).admins = st.admins := by
  unfold deleteContact
  split <;> rfl

/-- The portfolio-creation handler never touches the admin collection. -/
theorem createClient_admins (st : Store) (secret now : Nat)
    (h : Option RawTok) (b : ClientBody) :
    ((createClient st secret now h b).2).admins = st.admins := by
  unfold createClient
  split <;> rfl

/-- A register step keeps the stored usernames duplicate-free. -/
theorem register_admins_nodup (st : Store) (now : Nat) (u : String)
    (p : Option String) (hnd : (st.admins.map Admin.username).Nodup) :
    (((register st now u p).2).admins.map Admin.username).Nodup := by
  unfold register
  split
  · exact hnd
  case _ heq =>
    match p with
    | none => exact hnd
    | some pw =>
      have hu : ∀ a ∈ st.admins, ¬ a.username = u := by
        intro a ha
        have := List.find?_eq_none.mp heq a ha
        simpa using this
      simp only [bcryptHashOpt, List.map_append, List.map_cons, List.map_nil,
        List.nodup_append, List.nodup_cons, List.nodup_nil]
      refine ⟨hnd, ⟨by simp, trivial⟩, ?_⟩
      intro x hx
      obtain ⟨a, ha, rfl⟩ := List.mem_map.mp hx
      simpa using fun hxu => hu a ha hxu

/-- Reachable stores have duplicate-free admin usernames. -/
theorem reachable_usernames_nodup (st : Store) (h : Reachable st) :
    (st.admins.map Admin.username).Nodup := by
  induction h with
  | init => simp [st0]
  | step secret now r _ ih =>
    cases r with
    | contact ok n e p s m => simpa [stepStore, contactSubmit_admins] using ih
    | listContacts h => simpa [stepStore] using ih
    | putStatus h cid ns => simpa [stepStore, updateStatus_admins] using ih
    | delContact h cid => simpa [stepStore, deleteContact_admins] using ih
    | listClients => simpa [stepStore] using ih
    | addClient h b => simpa [stepStore, createClient_admins] using ih
    | reg u p => exact register_admins_nodup _ _ _ _ ih
    | logIn u p => simpa [stepStore] using ih

/-- C1: every request that fails the auth guard — no bearer token, a
token that fails verification, or a verified token whose embedded admin
id matches no stored account — receives the identical
`401 / success: false / "Please authenticate"` response, and each
admin-gated handler forwards exactly that body, so no distinction
between the causes is observable. -/
theorem auth_guard_uniform_401 (st : Store) (secret now : Nat)
    (tkBad tkGhost : RawTok) (gid cid : Nat) (ns : String) (b : ClientBody)
    (hbad : jwtVerify secret now tkBad = none)
    (hghost : jwtVerify secret now tkGhost = some gid)
    (hmiss : findAdminById st.admins gid = none) :
    authGuard st secret now none = .error authFailResp ∧
    authGuard st secret now (some tkBad) = .error authFailResp ∧
    authGuard st secret now (some tkGhost) = .error authFailResp ∧
    ∀ header, authGuard st secret now header = .error authFailResp →
      getContacts st secret now header =
        ⟨401, false, some "Please authenticate", none⟩ ∧
      updateStatus st secret now header cid ns =
        (⟨401, false, some "Please authenticate", none⟩, st) ∧
      deleteContact st secret now header cid =
        (⟨401, false, "Please authenticate"⟩, st) ∧
      createClient st secret now header b =
        (⟨401, false, some "Please authenticate", none⟩, st) := by
  refine ⟨rfl, ?_, ?_, ?_⟩
  · simp [authGuard, hbad]
  · simp [authGuard, hghost, hmiss]
  · intro header hfail
    exact ⟨by simp [getContacts, hfail, authFailResp],
           by simp [updateStatus, hfail, authFailResp],
           by simp [deleteContact, hfail, authFailResp],
           by simp [createClient, hfail, authFailResp]⟩

/-- Witness for C1 at a concrete store, secret, time and tokens. -/
theorem auth_guard_uniform_401_witness :
    authGuard stA 7 100 (some RawTok.malformed) = .error authFailResp ∧
    authGuard stA 7 100 (some (RawTok.signed 9 200 7)) = .error authFailResp ∧
    getContacts stA 7 100 none = ⟨401, false, some "Please authenticate", none⟩ := by
  have h := auth_guard_uniform_401 stA 7 100 RawTok.malformed
    (RawTok.signed 9 200 7) 9 0 "contacted" bodyEmpty rfl rfl rfl
  exact ⟨h.2.1, h.2.2.1, (h.2.2.2 none h.1).1⟩

/-- C2: admin usernames are unique.  A registration whose username
matches a stored account gets 400 and leaves the store untouched; a
registration with a fresh username gets 201 and appends exactly one
account (with the hashed password); and every reachable store has
duplicate-free usernames. -/
theorem register_username_unique (st : Store) (now : Nat) (u p : String) :
    ((∃ a ∈ st.admins, a.username = u) →
      register st now u (some p) = (⟨400, false, "Admin already exists"⟩, st)) ∧
    ((∀ a ∈ st.admins, a.username ≠ u) →
      register st now u (some p) =
        (⟨201, true, "Admin created successfully"⟩,
         { st with admins := st.admins ++ [⟨st.nextId, u, bcryptHash p⟩],
                   nextId := st.nextId + 1 })) ∧
    (∀ st', Reachable st' → (st'.admins.map Admin.username).Nodup) := by
  refine ⟨?_, ?_, reachable_usernames_nodup⟩
  · intro hex
    have hsome : (findAdminByUsername st.admins u).isSome := by
      unfold findAdminByUsername
      rw [List.find?_isSome]
      obtain ⟨a, ha, e⟩ := hex
      exact ⟨a, ha, by simpa using e⟩
    unfold register
    match heq : findAdminByUsername st.admins u with
    | some a => rfl
    | none => rw [heq] at hsome; simp at hsome
  · intro hfresh
    have hnone : findAdminByUsername st.admins u = none := by
      unfold findAdminByUsername
      rw [List.find?_eq_none]
      intro a ha
      simpa using hfresh a ha
    simp [register, hnone, bcryptHashOpt]

/-- Witness for C2: a duplicate registration on a concrete store, and a
fresh registration on the empty store. -/
theorem register_username_unique_witness :
    register stA 5 "a" (some "q") = (⟨400, false, "Admin already exists"⟩, stA) ∧
    register st0 5 "a" (some "q") =
      (⟨201, true, "Admin created successfully"⟩,
       { st0 with admins := st0.admins ++ [⟨st0.nextId, "a", bcryptHash "q"⟩],
                  nextId := st0.nextId + 1 }) := by
  refine ⟨(register_username_unique stA 5 "a" "q").1 ?_,
          ((register_username_unique st0 5 "a" "q").2.1 ?_)⟩
  · exact ⟨adminA, by simp [stA], rfl⟩
  · simp [st0]

/-- C3: a contact submission with `name`, `email` and `message` all
present and non-empty is persisted with status `"new"` and the
server-assigned date and answered with 201; if any of the three is
absent or empty the handler answers 400 and the store is unchanged. -/
theorem contact_validation (st : Store) (now : Nat) (ok : Bool)
    (name email phone service message : Option String) :
    (falsy name = false → falsy email = false → falsy message = false →
      (contactSubmit st now ok name email phone service message).1 =
        ⟨201, true, "Thank you! We will contact you soon."⟩ ∧
      (contactSubmit st now ok name email phone service message).2.1 =
        { st with
            contacts := st.contacts ++
              [⟨st.nextId, name.getD "", email.getD "", phone, service,
                message.getD "", now, "new"⟩],
            nextId := st.nextId + 1 }) ∧
    ((falsy name || falsy email || falsy message) = true →
      contactSubmit st now ok name email phone service message =
        (⟨400, false, "Name, email and message are required"⟩, st, [])) := by
  constructor
  · intro h1 h2 h3
    constructor <;> simp [contactSubmit, h1, h2, h3]
  · intro h
    simp [contactSubmit, h]

/-- Witness for C3: a valid submission and one missing the name. -/
theorem contact_validation_witness :
    (contactSubmit st0 9 true (some "X") (some "x@x.com") none none (some "hi")).1 =
      ⟨201, true, "Thank you! We will contact you soon."⟩ ∧
    contactSubmit st0 9 true none (some "x@x.com") none none (some "hi") =
      (⟨400, false, "Name, email and message are required"⟩, st0, []) := by
  refine ⟨((contact_validation st0 9 true (some "X") (some "x@x.com") none none
    (some "hi")).1 rfl rfl rfl).1, ?_⟩
  exact (contact_validation st0 9 true none (some "x@x.com") none none
    (some "hi")).2 rfl

/-- C4: login answers the same `invalidCredsResp` both when no account
matches the username and when the password fails verification against
the stored hash, and answers 200 with a token signed over the admin's
id when the password verifies. -/
theorem login_credentials (st : Store) (secret now : Nat)
    (username password : String) :
    (findAdminByUsername st.admins username = none →
      login st secret now username password = invalidCredsResp) ∧
    (∀ a, findAdminByUsername st.admins username = some a →
      bcryptCompare password a.password = false →
      login st secret now username password = invalidCredsResp) ∧
    (∀ a, findAdminByUsername st.admins username = some a →
      bcryptCompare password a.password = true →
      login st secret now username password =
        ⟨200, true, "Login successful",
         some (RawTok.signed a.id (now + sevenDays) secret)⟩) := by
  refine ⟨?_, ?_, ?_⟩
  · intro h
    simp [login, h]
  · intro a h hc
    simp [login, h, hc]
  · intro a h hc
    simp [login, h, hc, jwtSign]

/-- Witness for C4: unknown username, wrong password and correct
password against the concrete store `stA`. -/
theorem login_credentials_witness :
    login stA 7 100 "b" "p1" = invalidCredsResp ∧
    login stA 7 100 "a" "wrong" = invalidCredsResp ∧
    login stA 7 100 "a" "p1" =
      ⟨200, true, "Login successful",
       some (RawTok.signed adminA.id (100 + sevenDays) 7)⟩ := by
  refine ⟨(login_credentials stA 7 100 "b" "p1").1 rfl,
          (login_credentials stA 7 100 "a" "wrong").2.1 adminA rfl (by decide),
          (login_credentials stA 7 100 "a" "p1").2.2 adminA rfl (by decide)⟩

/-- C5: for a valid submission, the response and the stored data are
identical whether the notification sink succeeds or fails; only the
list of dispatched emails differs. -/
theorem notification_failure_transparent (st : Store) (now : Nat)
    (name email phone service message : Option String)
    (h1 : falsy name = false) (h2 : falsy email = false)
    (h3 : falsy message = false) :
    (contactSubmit st now true name email phone service message).1 =
      (contactSubmit st now false name email phone service message).1 ∧
    (contactSubmit st now true name email phone service message).2.1 =
      (contactSubmit st now false name email phone service message).2.1 := by
  constructor <;> simp [contactSubmit, h1, h2, h3]

/-- Witness for C5 on a concrete valid submission. -/
theorem notification_failure_transparent_witness :
    (contactSubmit st0 9 true (some "X") (some "x@x.com") none none (some "hi")).1 =
      (contactSubmit st0 9 false (some "X") (some "x@x.com") none none (some "hi")).1 ∧
    (contactSubmit st0 9 true (some "X") (some "x@x.com") none none (some "hi")).2.1 =
      (contactSubmit st0 9 false (some "X") (some "x@x.com") none none (some "hi")).2.1 :=
  notification_failure_transparent st0 9 (some "X") (some "x@x.com") none none
    (some "hi") rfl rfl rfl

/-- Deleting an id that no stored contact carries leaves the list
unchanged. -/
theorem removeContactById_of_none (l : List Contact) (cid : Nat)
    (h : ∀ c ∈ l, c.id ≠ cid) : removeContactById l cid = l := by
  induction l with
  | nil => rfl
  | cons c cs ih =>
    have hc : (c.id == cid) = false := by
      simpa using h c (List.mem_cons_self c cs)
    simp only [removeContactById, hc, Bool.false_eq_true, if_false, List.cons.injEq,
      true_and]
    exact ih fun x hx => h x (List.mem_cons_of_mem c hx)

/-- C6: for an authenticated request naming an id that matches no
stored inquiry, the status-update handler reports success with null
data and the delete handler reports success, and in both cases the
store is unchanged. -/
theorem missing_id_update_delete (st : Store) (secret now : Nat)
    (header : Option RawTok) (a : Admin) (cid : Nat) (ns : String)
    (hauth : authGuard st secret now header = .ok a)
    (hmiss : findContactById st.contacts cid = none) :
    updateStatus st secret now header cid ns = (⟨200, true, none, none⟩, st) ∧
    deleteContact st secret now header cid =
      (⟨200, true, "Contact deleted"⟩, st) := by
  have hids : ∀ c ∈ st.contacts, c.id ≠ cid := by
    intro c hc
    unfold findContactById at hmiss
    have := List.find?_eq_none.mp hmiss c hc
    simpa using this
  constructor
  · simp [updateStatus, hauth, hmiss]
  · simp [deleteContact, hauth, removeContactById_of_none st.contacts cid hids]

/-- Witness for C6: authenticated update and delete of the absent id 99
on the concrete store `stA`. -/
theorem missing_id_update_delete_witness :
    updateStatus stA 7 100 (some tokA) 99 "contacted" =
      (⟨200, true, none, none⟩, stA) ∧
    deleteContact stA 7 100 (some tokA) 99 =
      (⟨200, true, "Contact deleted"⟩, stA) :=
  missing_id_update_delete stA 7 100 (some tokA) adminA 99 "contacted" rfl rfl

/-- C7: an authenticated listing request answers 200 with a list that
is a permutation of all stored inquiries and is sorted by submission
date, most recent first. -/
theorem contacts_listed_sorted (st : Store) (secret now : Nat)
    (header : Option RawTok) (a : Admin)
    (hauth : authGuard st secret now header = .ok a) :
    (getContacts st secret now header).status = 200 ∧
    (getContacts st secret now header).success = true ∧
    (getContacts st secret now header).data =
      some (sortContactsByDateDesc st.contacts) ∧
    (sortContactsByDateDesc st.contacts).Perm st.contacts ∧
    (sortContactsByDateDesc st.contacts).Sorted dateGe := by
  refine ⟨by simp [getContacts, hauth], by simp [getContacts, hauth],
    by simp [getContacts, hauth], List.perm_insertionSort dateGe st.contacts,
    List.sorted_insertionSort dateGe st.contacts⟩

/-- Witness for C7 on the concrete store `stA`. -/
theorem contacts_listed_sorted_witness :
    (getContacts stA 7 100 (some tokA)).status = 200 ∧
    (getContacts stA 7 100 (some tokA)).data =
      some (sortContactsByDateDesc stA.contacts) := by
  have h := contacts_listed_sorted stA 7 100 (some tokA) adminA rfl
  exact ⟨h.1, h.2.2.1⟩

/-- C8 counterexample: two creation bodies that differ only in a
non-schema field `"foo"` produce identical responses and identical
stores, and the persisted record carries none of the submitted content
— so the caller-supplied record is not persisted as-is and a submitted
non-schema field is not preserved. -/
theorem client_extra_field_dropped :
    bodyFoo ≠ bodyEmpty ∧
    createClient stA 7 100 (some tokA) bodyFoo =
      createClient stA 7 100 (some tokA) bodyEmpty ∧
    ((createClient stA 7 100 (some tokA) bodyFoo).2).clients =
      [⟨4, none, none, none, none, none, none, none, 100⟩] := by
  refine ⟨by decide, rfl, rfl⟩

/-- C8 amended: an authenticated portfolio creation persists exactly
the schema-declared fields of the body, each preserved as submitted,
together with the server-assigned timestamp; it answers 201 with the
persisted record, and the non-schema `extra` fields do not influence
the created document. -/
theorem client_create_schema_fields (st : Store) (secret now : Nat)
    (header : Option RawTok) (a : Admin) (b : ClientBody)
    (hauth : authGuard st secret now header = .ok a) :
    createClient st secret now header b =
      (⟨201, true, none, some (clientOfBody st.nextId now b)⟩,
       { st with clients := st.clients ++ [clientOfBody st.nextId now b],
                 nextId := st.nextId + 1 }) ∧
    (clientOfBody st.nextId now b).name = b.name ∧
    (clientOfBody st.nextId now b).logo = b.logo ∧
    (clientOfBody st.nextId now b).projectName = b.projectName ∧
    (clientOfBody st.nextId now b).category = b.category ∧
    (clientOfBody st.nextId now b).results = b.results ∧
    (clientOfBody st.nextId now b).testimonial = b.testimonial ∧
    (clientOfBody st.nextId now b).clientRating = b.clientRating ∧
    (clientOfBody st.nextId now b).date = now ∧
    clientOfBody st.nextId now { b with extra := [] } =
      clientOfBody st.nextId now b := by
  exact ⟨by simp [createClient, hauth], rfl, rfl, rfl, rfl, rfl, rfl, rfl, rfl, rfl⟩

/-- Witness for the amended C8 on the concrete store `stA`. -/
theorem client_create_schema_fields_witness :
    createClient stA 7 100 (some tokA) bodyEmpty =
      (⟨201, true, none, some (clientOfBody stA.nextId 100 bodyEmpty)⟩,
       { stA with clients := stA.clients ++ [clientOfBody stA.nextId 100 bodyEmpty],
                  nextId := stA.nextId + 1 }) ∧
    (clientOfBody stA.nextId 100 bodyEmpty).date = 100 := by
  have h := client_create_schema_fields stA 7 100 (some tokA) adminA bodyEmpty rfl
  exact ⟨h.1, h.2.2.2.2.2.2.2.2.1⟩

/-- The model hash is never the plaintext it was built from. -/
theorem bcryptHash_ne_plain (p : String) : bcryptHash p ≠ p := by
  intro h
  have hl := congrArg String.length h
  simp [bcryptHash, String.length_append] at hl
  exact absurd hl (by decide)

/-- The model hash is never one of the fixed response messages of the
register and login handlers. -/
theorem bcryptHash_ne_msg (p : String) :
    bcryptHash p ≠ "Invalid credentials" ∧
    bcryptHash p ≠ "Login successful" ∧
    bcryptHash p ≠ "Admin already exists" ∧
    bcryptHash p ≠ "Admin created successfully" ∧
    bcryptHash p ≠ "Server error" := by
  obtain ⟨l⟩ := p
  refine ⟨?_, ?_, ?_, ?_, ?_⟩ <;>
    · intro h
      have h2 := congrArg String.data h
      simp [bcryptHash, String.data_append] at h2

/-- The login response message is one of the two fixed strings. -/
theorem login_message_cases (st : Store) (secret now : Nat) (u pw : String) :
    (login st secret now u pw).message = "Invalid credentials" ∨
    (login st secret now u pw).message = "Login successful" := by
  unfold login
  split
  · left; rfl
  · split
    · right; rfl
    · left; rfl

/-- The register response message is one of the three fixed strings. -/
theorem register_message_cases (st : Store) (now : Nat) (u : String)
    (pw : Option String) :
    ((register st now u pw).1).message = "Admin already exists" ∨
    ((register st now u pw).1).message = "Server error" ∨
    ((register st now u pw).1).message = "Admin created successfully" := by
  unfold register
  split
  · left; rfl
  · split
    · right; left; rfl
    · right; right; rfl

/-- A register step only ever stores bcrypt outputs in the password
field. -/
theorem register_admins_hashed (st : Store) (now : Nat) (u : String)
    (pw : Option String)
    (h : ∀ a ∈ st.admins, ∃ p, a.password = bcryptHash p) :
    ∀ a ∈ ((register st now u pw).2).admins, ∃ p, a.password = bcryptHash p := by
  unfold register
  split
  · exact h
  · split
    · exact h
    case _ hsh hok =>
      intro a ha
      simp only [List.mem_append, List.mem_singleton] at ha
      rcases ha with h1 | h2
      · exact h a h1
      · subst h2
        cases pw with
        | none => simp [bcryptHashOpt] at hok
        | some p =>
          simp only [bcryptHashOpt, Except.ok.injEq] at hok
          exact ⟨p, by simp [hok]⟩

/-- Every reachable store keeps only bcrypt outputs in the password
field. -/
theorem reachable_admins_hashed (st : Store) (h : Reachable st) :
    ∀ a ∈ st.admins, ∃ p, a.password = bcryptHash p := by
  induction h with
  | init => simp [st0]
  | step secret now r _ ih =>
    cases r with
    | contact ok n e p s m => simpa [stepStore, contactSubmit_admins] using ih
    | listContacts h => simpa [stepStore] using ih
    | putStatus h cid ns => simpa [stepStore, updateStatus_admins] using ih
    | delContact h cid => simpa [stepStore, deleteContact_admins] using ih
    | listClients => simpa [stepStore] using ih
    | addClient h b => simpa [stepStore, createClient_admins] using ih
    | reg u p => exact register_admins_hashed _ _ _ _ ih
    | logIn u p => simpa [stepStore] using ih

/-- C9: in every reachable store the stored admin password is a bcrypt
output and never the plaintext it hashes, and the response bodies of
the register and login handlers — whose only string field is the fixed
`message`, the login token carrying nothing but numeric id, expiry and
key — never contain a stored password hash. -/
theorem password_never_plain_never_exposed (st : Store) (h : Reachable st) :
    (∀ a ∈ st.admins, ∃ p, a.password = bcryptHash p ∧ a.password ≠ p) ∧
    (∀ secret now u pw, ∀ a ∈ st.admins,
      (login st secret now u pw).message ≠ a.password) ∧
    (∀ now u pw, ∀ a ∈ st.admins,
      ((register st now u pw).1).message ≠ a.password) := by
  have hh := reachable_admins_hashed st h
  refine ⟨?_, ?_, ?_⟩
  · intro a ha
    obtain ⟨p, hp⟩ := hh a ha
    exact ⟨p, hp, by rw [hp]; exact bcryptHash_ne_plain p⟩
  · intro secret now u pw a ha
    obtain ⟨p, hp⟩ := hh a ha
    rcases login_message_cases st secret now u pw with hm | hm <;> rw [hm, hp]
    · exact fun e => (bcryptHash_ne_msg p).1 e.symm
    · exact fun e => (bcryptHash_ne_msg p).2.1 e.symm
  · intro now u pw a ha
    obtain ⟨p, hp⟩ := hh a ha
    rcases register_message_cases st now u pw with hm | hm | hm <;> rw [hm, hp]
    · exact fun e => (bcryptHash_ne_msg p).2.2.1 e.symm
    · exact fun e => (bcryptHash_ne_msg p).2.2.2.2 e.symm
    · exact fun e => (bcryptHash_ne_msg p).2.2.2.1 e.symm

/-- The store after one successful registration on the fresh database. -/
def st1 : Store := stepStore 7 100 st0 (.reg "a" (some "p1"))

/-- Witness for C9 on the concrete reachable store `st1`. -/
theorem password_never_plain_never_exposed_witness :
    (login st1 7 100 "a" "wrong").message ≠
      (Admin.mk 0 "a" (bcryptHash "p1")).password ∧
    ((register st1 5 "a" (some "q")).1).message ≠
      (Admin.mk 0 "a" (bcryptHash "p1")).password := by
  have h := password_never_plain_never_exposed st1
    (Reachable.step 7 100 (Req.reg "a" (some "p1")) Reachable.init)
  have hm : (⟨0, "a", bcryptHash "p1"⟩ : Admin) ∈ st1.admins := by
    simp [st1, stepStore, register, st0, findAdminByUsername, bcryptHashOpt]
  exact ⟨h.2.1 7 100 "a" "wrong" _ hm, h.2.2 5 "a" (some "q") _ hm⟩

/-- C10 counterexample: a registration with an absent password whose
username matches a stored account is answered by the duplicate check —
400, not the generic 500. -/
theorem register_absent_password_conflict :
    register stA 5 "a" none = (⟨400, false, "Admin already exists"⟩, stA) ∧
    ((register stA 5 "a" none).1).status ≠ 500 := by
  exact ⟨rfl, by decide⟩

/-- C10 amended: with a username that matches no stored account, a
registration with an absent password reaches the hashing step, whose
rejection falls into the catch-all handler: the response is the generic
500 server error and no account is persisted. -/
theorem register_absent_password_500 (st : Store) (now : Nat) (u : String)
    (hfresh : findAdminByUsername st.admins u = none) :
    register st now u none = (⟨500, false, "Server error"⟩, st) := by
  simp [register, hfresh, bcryptHashOpt]

/-- Witness for the amended C10 on the empty store. -/
theorem register_absent_password_500_witness :
    register st0 5 "a" none = (⟨500, false, "Server error"⟩, st0) :=
  register_absent_password_500 st0 5 "a" rfl
